import Mathlib

/-!
Verification development for the notebook
`2. Prepare Data/create_feature_store.ipynb`.

The notebook loads a CSV of credit-card transactions from S3 into a pandas
dataframe, casts object-dtype columns to string dtype, assigns a constant
`event_time` column, registers the schema with SageMaker FeatureStore via
`load_feature_definitions`, creates the feature group, polls its status to
completion, ingests the rows, and retrieves one record.

We shallowly embed the dataframe transformations, the status-polling loop
(fuel-indexed, since the Python loop has no timeout), and the sequence of
externally visible calls the notebook issues.
-/

/-- A cell value of a pandas dataframe. Integral float64 cells (the only
float values any modelled operation constructs or compares: the epoch-seconds
`event_time`) are carried exactly as integers; `float64` represents them
exactly. String cells carry the Python string. -/
inductive Cell where
  | intV (n : Int)
  | floatV (n : Int)
  | strV (s : String)
  deriving DecidableEq, Repr

/-- Python `str(value)` on a cell, as applied by `.astype("str")`:
`str` of an int is its decimal form, `str` of an integral float appends
`.0`, `str` of a string is the string itself. -/
def cellStr : Cell → String
  | Cell.intV n => toString n
  | Cell.floatV n => toString n ++ ".0"
  | Cell.strV s => s

/-- A named, dtyped column of a pandas dataframe. -/
structure Column where
  name : String
  dtype : String
  values : List Cell
  deriving DecidableEq, Repr

/-- A pandas dataframe: its columns in order, and its row count
(`len(data_frame)`). -/
structure DataFrame where
  cols : List Column
  nrows : Nat
  deriving DecidableEq, Repr

/-- One column's transformation under `cast_object_to_string`'s loop body:
`data_frame[label] = data_frame[label].astype("str").astype("string")`
when `data_frame.dtypes[label] == 'object'`; columns of any other dtype are
not touched. `.astype("str")` applies Python `str` to every value and
`.astype("string")` sets the pandas `string` dtype. -/
def castColumn (c : Column) : Column :=
  if c.dtype = "object" then
    { c with dtype := "string", values := c.values.map (fun v => Cell.strV (cellStr v)) }
  else c

/-- `cast_object_to_string(data_frame)` from the notebook: loops over all
columns and re-types the object-dtype ones, mutating the frame in place;
we return the resulting frame. -/
def cast_object_to_string (df : DataFrame) : DataFrame :=
  { df with cols := df.cols.map castColumn }

/-- Pandas column assignment `data_frame[name] = series`: if a column with
that name exists it is overwritten in place (same position), otherwise the
new column is appended at the end. -/
def setColumn (df : DataFrame) (name dtype : String) (vals : List Cell) : DataFrame :=
  if df.cols.any (fun c => c.name = name) then
    { df with cols := df.cols.map (fun c => if c.name = name then ⟨name, dtype, vals⟩ else c) }
  else
    { df with cols := df.cols ++ [⟨name, dtype, vals⟩] }

/-- The record identifier feature name used by the notebook. -/
def record_identifier_feature_name : String := "record_id"

/-- The event time feature name used by the notebook. -/
def event_time_feature_name : String := "event_time"

/-- `transaction_data[event_time_feature_name] =
pd.Series([current_time_sec]*len(transaction_data), dtype="float64")`:
assign a float64 column holding `current_time_sec` in every row. -/
def append_event_time (df : DataFrame) (current_time_sec : Int) : DataFrame :=
  setColumn df event_time_feature_name "float64"
    (List.replicate df.nrows (Cell.floatV current_time_sec))

/-- The dataframe the notebook hands to `load_feature_definitions` and
`ingest`: the raw CSV frame after object-to-string casting and the
`event_time` assignment. -/
def prepared_data (raw : DataFrame) (current_time_sec : Int) : DataFrame :=
  append_event_time (cast_object_to_string raw) current_time_sec

/-- The feature group name created by the notebook. -/
def fd_feature_group_name : String := "transactionfeaturegroup001"

/-- `record_identifier_value = str(100)`: the key used for the single
`get_record` lookup. -/
def record_identifier_value : String := toString (100 : Nat)

/-- The S3 key of the CSV the notebook fetches. -/
def data_file_key : String := "data/fraud-detection/credit-dataset.csv"

/-- The `s3_uri` argument of `fd_feature_group.create`:
`f"s3://{default_s3_bucket_name}/{prefix}"` with the notebook's fixed
prefix string. -/
def offline_store_s3_uri (bucket : String) : String :=
  "s3://" ++ bucket ++ "/sagemaker-featurestore-demo"

/-- `wait_for_feature_group_creation_complete`, fuel-indexed. The Python
loop polls `feature_group.describe().get("FeatureGroupStatus")` (an
`Option String`: `.get` yields `None` when the key is absent), sleeps and
re-polls while the status equals `"Creating"`, and once it differs raises
`RuntimeError(f"Failed to create feature group {feature_group.name}")`
unless the status equals `"Created"`. We abstract the sequence of polled
statuses as `polls : Nat → Option String`; `i` is the index of the next
poll, and exhausted fuel (`none`) stands for a still-running loop, which
in Python has no retry limit. -/
def waitAux (name : String) (polls : Nat → Option String) :
    Nat → Nat → Option (Except String Unit)
  | 0, _ => none
  | fuel + 1, i =>
    if polls i = some "Creating" then waitAux name polls fuel (i + 1)
    else if polls i = some "Created" then some (Except.ok ())
    else some (Except.error ("Failed to create feature group " ++ name))

/-- `wait_for_feature_group_creation_complete(feature_group)` applied to
the notebook's feature group, starting from the first poll. -/
def wait_for_feature_group_creation_complete
    (polls : Nat → Option String) (fuel : Nat) : Option (Except String Unit) :=
  waitAux fd_feature_group_name polls fuel 0

/-- The index of the first poll whose status is no longer `"Creating"`,
searched from poll `i` with the given fuel: the poll on which the `while`
loop of `wait_for_feature_group_creation_complete` stops. -/
def firstNonCreating (polls : Nat → Option String) : Nat → Nat → Option Nat
  | 0, _ => none
  | fuel + 1, i =>
    if polls i = some "Creating" then firstNonCreating polls fuel (i + 1)
    else some i

/-- An externally visible call issued by the notebook, in the order the
cells execute. `loadFeatureDefinitions` is the local SDK schema
auto-detection on a dataframe; the rest are S3 / SageMaker service calls. -/
inductive Event where
  | s3GetObject (bucket key : String)
  | readCsv
  | loadFeatureDefinitions (groupName : String) (df : DataFrame)
  | createFG (groupName s3Uri recordIdentifierName eventTimeName roleArn : String)
      (enableOnlineStore : Bool)
  | describeFG (groupName : String)
  | ingest (groupName : String) (df : DataFrame) (maxWorkers : Nat) (wait : Bool)
  | getRecord (groupName recordIdentifierValueAsString : String)
  deriving DecidableEq, Repr

/-- The calls the notebook issues before any status poll: fetch and parse
the CSV (cell 8), auto-detect the schema from the prepared frame and
create the feature group (cells 12 and 14, in order). `create` is called
with `s3_uri`, `record_identifier_name="record_id"`,
`event_time_feature_name="event_time"`, `role_arn` and
`enable_online_store=True`, and no feature-definition argument. -/
def preEvents (raw : DataFrame) (current_time_sec : Int) (bucket roleArn : String) :
    List Event :=
  [Event.s3GetObject bucket data_file_key,
   Event.readCsv,
   Event.loadFeatureDefinitions fd_feature_group_name (prepared_data raw current_time_sec),
   Event.createFG fd_feature_group_name (offline_store_s3_uri bucket)
     record_identifier_feature_name event_time_feature_name roleArn true]

/-- The `describe` calls issued by the polling loop: one per poll, up to
and including the first poll whose status is no longer `"Creating"`. -/
def describeEvents (polls : Nat → Option String) (fuel : Nat) : List Event :=
  match firstNonCreating polls fuel 0 with
  | none => []
  | some i => List.replicate (i + 1) (Event.describeFG fd_feature_group_name)

/-- The calls the notebook issues after the wait returns: the standalone
`fd_feature_group.describe()` (cell 15), the single blocking
`ingest(data_frame=transaction_data, max_workers=3, wait=True)` (cell 17),
and the single
`get_record(FeatureGroupName=..., RecordIdentifierValueAsString=str(100))`
(cell 19). -/
def postEvents (raw : DataFrame) (current_time_sec : Int) : List Event :=
  [Event.describeFG fd_feature_group_name,
   Event.ingest fd_feature_group_name (prepared_data raw current_time_sec) 3 true,
   Event.getRecord fd_feature_group_name record_identifier_value]

/-- The notebook run, parametrised by its external inputs: the parsed CSV
frame `raw`, `current_time_sec`, the default bucket and execution role,
and the polled statuses. `none` means the polling loop is still running
after `fuel` polls; `some (Except.error e)` means the notebook stopped at
the `RuntimeError` of `wait_for_feature_group_creation_complete` — the
only raise statement in the file (there is no try/except anywhere); on
success the result is the list of externally visible calls, in order. -/
def runNotebook (raw : DataFrame) (current_time_sec : Int) (bucket roleArn : String)
    (polls : Nat → Option String) (fuel : Nat) : Option (Except String (List Event)) :=
  match wait_for_feature_group_creation_complete polls fuel with
  | none => none
  | some (Except.error e) => some (Except.error e)
  | some (Except.ok _) =>
    some (Except.ok (preEvents raw current_time_sec bucket roleArn
      ++ describeEvents polls fuel ++ postEvents raw current_time_sec))

/-- Whether an event is a `get_record` lookup. -/
def isGetRecord : Event → Bool
  | Event.getRecord _ _ => true
  | _ => false

/-- Whether an event is an `ingest` call. -/
def isIngest : Event → Bool
  | Event.ingest _ _ _ _ => true
  | _ => false

/-! ### Lemmas about the polling loop -/

/-- If the loop's stopping poll exists at index `j`, `waitAux` returns the
check of that poll against `"Created"`. -/
theorem waitAux_eq_of_firstNonCreating (name : String) (polls : Nat → Option String) :
    ∀ fuel i j, firstNonCreating polls fuel i = some j →
      waitAux name polls fuel i =
        some (if polls j = some "Created" then Except.ok ()
              else Except.error ("Failed to create feature group " ++ name)) := by
  intro fuel
  induction fuel with
  | zero => intro i j h; simp [firstNonCreating] at h
  | succ n ih =>
    intro i j h
    by_cases hc : polls i = some "Creating"
    · have h2 : firstNonCreating polls n (i + 1) = some j := by
        simpa [firstNonCreating, hc] using h
      simpa [waitAux, hc] using ih (i + 1) j h2
    · have h2 : j = i := by simpa [firstNonCreating, hc] using h.symm
      subst h2
      by_cases hd : polls j = some "Created" <;> simp [waitAux, hc, hd]

/-- If `waitAux` returned, the stopping poll exists. -/
theorem firstNonCreating_isSome_of_waitAux (name : String) (polls : Nat → Option String) :
    ∀ fuel i r, waitAux name polls fuel i = some r →
      ∃ j, firstNonCreating polls fuel i = some j := by
  intro fuel
  induction fuel with
  | zero => intro i r h; simp [waitAux] at h
  | succ n ih =>
    intro i r h
    by_cases hc : polls i = some "Creating"
    · have h2 : waitAux name polls n (i + 1) = some r := by
        simpa [waitAux, hc] using h
      obtain ⟨j, hj⟩ := ih (i + 1) r h2
      exact ⟨j, by simpa [firstNonCreating, hc] using hj⟩
    · exact ⟨i, by simp [firstNonCreating, hc]⟩

/-- The stopping poll's status is no longer `"Creating"`. -/
theorem firstNonCreating_not_creating (polls : Nat → Option String) :
    ∀ fuel i j, firstNonCreating polls fuel i = some j →
      polls j ≠ some "Creating" := by
  intro fuel
  induction fuel with
  | zero => intro i j h; simp [firstNonCreating] at h
  | succ n ih =>
    intro i j h
    by_cases hc : polls i = some "Creating"
    · exact ih (i + 1) j (by simpa [firstNonCreating, hc] using h)
    · have h2 : j = i := by simpa [firstNonCreating, hc] using h.symm
      subst h2; exact hc

/-- If some poll within the fuel window is no longer `"Creating"`, the
search stops. -/
theorem firstNonCreating_isSome (polls : Nat → Option String) :
    ∀ fuel i, (∃ k, k < fuel ∧ polls (i + k) ≠ some "Creating") →
      ∃ j, firstNonCreating polls fuel i = some j := by
  intro fuel
  induction fuel with
  | zero => intro i h; obtain ⟨k, hk, _⟩ := h; omega
  | succ n ih =>
    intro i h
    by_cases hc : polls i = some "Creating"
    · obtain ⟨k, hk, hkc⟩ := h
      match k with
      | 0 => exact absurd hc (by simpa using hkc)
      | m + 1 =>
        obtain ⟨j, hj⟩ := ih (i + 1) ⟨m, by omega, by
          have : i + 1 + m = i + (m + 1) := by omega
          rw [this]; exact hkc⟩
        exact ⟨j, by simpa [firstNonCreating, hc] using hj⟩
    · exact ⟨i, by simp [firstNonCreating, hc]⟩

/-- C1: `wait_for_feature_group_creation_complete` raises `RuntimeError`
if and only if the polled `FeatureGroupStatus`, at the first poll `j`
where it is no longer `"Creating"`, is not equal to `"Created"`; when
that final polled status is `"Created"` the function returns normally. -/
theorem wait_raises_iff_terminal_not_created
    (polls : Nat → Option String) (fuel j : Nat)
    (h : firstNonCreating polls fuel 0 = some j) :
    ((∃ e, wait_for_feature_group_creation_complete polls fuel = some (Except.error e)) ↔
        polls j ≠ some "Created") ∧
    (wait_for_feature_group_creation_complete polls fuel = some (Except.ok ()) ↔
        polls j = some "Created") := by
  have hw := waitAux_eq_of_firstNonCreating fd_feature_group_name polls fuel 0 j h
  unfold wait_for_feature_group_creation_complete
  rw [hw]
  by_cases hd : polls j = some "Created" <;> simp [hd]

/-- Witness for C1 at a run whose third poll reports `"Created"`. -/
theorem wait_raises_iff_terminal_not_created_witness :
    wait_for_feature_group_creation_complete
        (fun i => if i < 2 then some "Creating" else some "Created") 5 =
      some (Except.ok ()) :=
  ((wait_raises_iff_terminal_not_created
      (fun i => if i < 2 then some "Creating" else some "Created") 5 2
      (by decide)).2).mpr (by decide)

/-- C10: the polling loop terminates if and only if some poll of
`describe()` returns a `FeatureGroupStatus` different from `"Creating"`;
if every poll returns `"Creating"` no amount of fuel makes it return
(the loop has no retry limit or timeout). -/
theorem wait_terminates_iff_some_poll_not_creating
    (polls : Nat → Option String) :
    (∃ fuel r, wait_for_feature_group_creation_complete polls fuel = some r) ↔
      (∃ i, polls i ≠ some "Creating") := by
  constructor
  · rintro ⟨fuel, r, hr⟩
    obtain ⟨j, hj⟩ :=
      firstNonCreating_isSome_of_waitAux fd_feature_group_name polls fuel 0 r hr
    exact ⟨j, firstNonCreating_not_creating polls fuel 0 j hj⟩
  · rintro ⟨i, hi⟩
    obtain ⟨j, hj⟩ := firstNonCreating_isSome polls (i + 1) 0 ⟨i, by omega, by simpa using hi⟩
    exact ⟨i + 1, _,
      waitAux_eq_of_firstNonCreating fd_feature_group_name polls (i + 1) 0 j hj⟩

/-- Witness for C10 at a run whose third poll reports `"Created"`. -/
theorem wait_terminates_iff_some_poll_not_creating_witness :
    ∃ fuel r, wait_for_feature_group_creation_complete
        (fun i => if i < 2 then some "Creating" else some "Created") fuel = some r :=
  (wait_terminates_iff_some_poll_not_creating
      (fun i => if i < 2 then some "Creating" else some "Created")).mpr
    ⟨2, by decide⟩

/-! ### Dataframe transformation claims -/

/-- C3: after `cast_object_to_string(data_frame)`, every column whose
dtype was `object` before the call has dtype `string`, with each value the
Python string form of the original value. -/
theorem cast_object_to_string_object_columns
    (df : DataFrame) (i : Nat) (h : i < df.cols.length)
    (h2 : i < (cast_object_to_string df).cols.length)
    (hobj : (df.cols.get ⟨i, h⟩).dtype = "object") :
    ((cast_object_to_string df).cols.get ⟨i, h2⟩).dtype = "string" ∧
    ((cast_object_to_string df).cols.get ⟨i, h2⟩).values =
      (df.cols.get ⟨i, h⟩).values.map (fun v => Cell.strV (cellStr v)) := by
  have hobj2 : df.cols[i].dtype = "object" := hobj
  simp [cast_object_to_string, castColumn, hobj2]

/-- An input frame with one object-dtype column, for evaluating the cast. -/
def dfObjEx : DataFrame :=
  { cols := [{ name := "memo", dtype := "object", values := [Cell.intV 7, Cell.strV "x"] }],
    nrows := 2 }

/-- Witness for C3 on a one-column object-dtype frame. -/
theorem cast_object_to_string_object_columns_witness :
    ((cast_object_to_string dfObjEx).cols.get ⟨0, by decide⟩).dtype = "string" ∧
    ((cast_object_to_string dfObjEx).cols.get ⟨0, by decide⟩).values =
      (dfObjEx.cols.get ⟨0, by decide⟩).values.map (fun v => Cell.strV (cellStr v)) :=
  cast_object_to_string_object_columns dfObjEx 0 (by decide) (by decide) (by decide)

/-- C8: `cast_object_to_string` leaves every column whose dtype is not
`object` completely unchanged — same dtype and same values, at the same
position. -/
theorem cast_object_to_string_frame_effect
    (df : DataFrame) (i : Nat) (h : i < df.cols.length)
    (h2 : i < (cast_object_to_string df).cols.length)
    (hne : (df.cols.get ⟨i, h⟩).dtype ≠ "object") :
    (cast_object_to_string df).cols.get ⟨i, h2⟩ = df.cols.get ⟨i, h⟩ := by
  have hne2 : ¬ df.cols[i].dtype = "object" := hne
  simp [cast_object_to_string, castColumn, hne2]

/-- An input frame with one non-object column, for evaluating the cast. -/
def dfNumEx : DataFrame :=
  { cols := [{ name := "amount", dtype := "float64", values := [Cell.floatV 7] }],
    nrows := 1 }

/-- Witness for C8 on a one-column float64 frame. -/
theorem cast_object_to_string_frame_effect_witness :
    (cast_object_to_string dfNumEx).cols.get ⟨0, by decide⟩ =
      dfNumEx.cols.get ⟨0, by decide⟩ :=
  cast_object_to_string_frame_effect dfNumEx 0 (by decide) (by decide) (by decide)

/-- A frame that already contains an `event_time` column, as the
notebook's CSV does (its `head()` output shows `event_time` loaded from
the file before the assignment runs). -/
def dfEvtEx : DataFrame :=
  { cols := [{ name := "event_time", dtype := "string",
               values := [Cell.strV "2021-08-24 03:42:37.420039"] }],
    nrows := 1 }

/-- Counterexample to C9 as stated: on a frame that already has an
`event_time` column, the assignment overwrites that pre-existing column in
place (no column is appended, and the pre-existing column does not keep
its old dtype and values). -/
theorem append_event_time_counterexample :
    (append_event_time dfEvtEx 1629776605).cols.get ⟨0, by decide⟩ ≠
        dfEvtEx.cols.get ⟨0, by decide⟩ ∧
    (append_event_time dfEvtEx 1629776605).cols.length = dfEvtEx.cols.length := by
  decide

/-- The new column built by the `event_time` assignment. -/
def eventTimeCol (df : DataFrame) (t : Int) : Column :=
  { name := event_time_feature_name, dtype := "float64",
    values := List.replicate df.nrows (Cell.floatV t) }

/-- When a column of the given name exists, pandas assignment rewrites the
columns in place. -/
theorem setColumn_cols_pos (df : DataFrame) (name dtype : String) (vals : List Cell)
    (hex : df.cols.any (fun c => c.name = name) = true) :
    (setColumn df name dtype vals).cols =
      df.cols.map (fun c => if c.name = name then ⟨name, dtype, vals⟩ else c) := by
  unfold setColumn
  rw [if_pos hex]

/-- When no column of the given name exists, pandas assignment appends the
new column. -/
theorem setColumn_cols_neg (df : DataFrame) (name dtype : String) (vals : List Cell)
    (hex : ¬ df.cols.any (fun c => c.name = name) = true) :
    (setColumn df name dtype vals).cols = df.cols ++ [⟨name, dtype, vals⟩] := by
  unfold setColumn
  rw [if_neg hex]

/-- Pandas column assignment never changes the row count. -/
theorem setColumn_nrows (df : DataFrame) (name dtype : String) (vals : List Cell) :
    (setColumn df name dtype vals).nrows = df.nrows := by
  unfold setColumn
  split <;> rfl

/-- C9 (amended): the assigned `event_time` column holds the single
epoch-seconds integer, as float64, in every row, with length equal to the
frame's row count; every column not named `event_time` is unchanged at its
position, and the row count is unchanged. If a column named `event_time`
already exists it is overwritten in place; otherwise the new column is
appended. -/
theorem append_event_time_amended (df : DataFrame) (t : Int) :
    (∀ c ∈ (append_event_time df t).cols, c.name = event_time_feature_name →
        c = eventTimeCol df t) ∧
    (∃ c ∈ (append_event_time df t).cols, c.name = event_time_feature_name) ∧
    (∀ i (h1 : i < df.cols.length),
        (df.cols.get ⟨i, h1⟩).name ≠ event_time_feature_name →
        (append_event_time df t).cols[i]? = some (df.cols.get ⟨i, h1⟩)) ∧
    (append_event_time df t).nrows = df.nrows := by
  have hnr : (append_event_time df t).nrows = df.nrows := setColumn_nrows df _ _ _
  by_cases hex : df.cols.any (fun c => c.name = event_time_feature_name) = true
  · have hcols : (append_event_time df t).cols =
        df.cols.map (fun c =>
          if c.name = event_time_feature_name then eventTimeCol df t else c) :=
      setColumn_cols_pos df _ _ _ hex
    refine ⟨?_, ?_, ?_, hnr⟩
    · intro c hc hname
      rw [hcols] at hc
      obtain ⟨a, ha, rfl⟩ := List.mem_map.mp hc
      by_cases hb : a.name = event_time_feature_name
      · rw [if_pos hb]
      · rw [if_neg hb] at hname ⊢
        exact absurd hname hb
    · obtain ⟨a, ha, hname⟩ := List.any_eq_true.mp hex
      have hname2 : a.name = event_time_feature_name := of_decide_eq_true hname
      refine ⟨eventTimeCol df t, ?_, rfl⟩
      rw [hcols]
      exact List.mem_map.mpr ⟨a, ha, by rw [if_pos hname2]⟩
    · intro i h1 hne
      have hne2 : ¬ df.cols[i].name = event_time_feature_name := hne
      rw [hcols]
      rw [List.getElem?_map, List.getElem?_eq_getElem h1]
      simp [hne2]
  · have hcols : (append_event_time df t).cols = df.cols ++ [eventTimeCol df t] :=
      setColumn_cols_neg df _ _ _ hex
    refine ⟨?_, ?_, ?_, hnr⟩
    · intro c hc hname
      rw [hcols] at hc
      rcases List.mem_append.mp hc with hin | hin
      · exact absurd (List.any_eq_true.mpr ⟨c, hin, decide_eq_true hname⟩) hex
      · simpa using hin
    · refine ⟨eventTimeCol df t, ?_, rfl⟩
      rw [hcols]
      exact List.mem_append.mpr (Or.inr (by simp))
    · intro i h1 hne
      rw [hcols, List.getElem?_append, if_pos h1, List.getElem?_eq_getElem h1]
      rfl

/-- Witness for the amended C9: a frame with one non-`event_time` column
keeps it unchanged at its position. -/
theorem append_event_time_amended_witness :
    (append_event_time dfNumEx 5).cols[0]? = some (dfNumEx.cols.get ⟨0, by decide⟩) :=
  (append_event_time_amended dfNumEx 5).2.2.1 0 (by decide) (by decide)

/-! ### The notebook's call trace -/

/-- Filtering a replicated event by a predicate it fails gives nothing. -/
theorem filter_replicate_false {p : Event → Bool} {a : Event} (hp : p a = false) :
    ∀ n, (List.replicate n a).filter p = [] := by
  intro n
  induction n with
  | zero => rfl
  | succ k ih => simp [List.replicate_succ, List.filter_cons, hp, ih]

/-- A successful notebook run stops polling at the first non-`"Creating"`
status `j`, which reads `"Created"`, and its trace is the pre-create
calls, `j + 1` polls, and the post-create calls. -/
theorem runNotebook_ok (raw : DataFrame) (t : Int) (bucket roleArn : String)
    (polls : Nat → Option String) (fuel : Nat) (tr : List Event)
    (h : runNotebook raw t bucket roleArn polls fuel = some (Except.ok tr)) :
    ∃ j, firstNonCreating polls fuel 0 = some j ∧ polls j = some "Created" ∧
      tr = preEvents raw t bucket roleArn
        ++ List.replicate (j + 1) (Event.describeFG fd_feature_group_name)
        ++ postEvents raw t := by
  cases hw : wait_for_feature_group_creation_complete polls fuel with
  | none =>
    unfold runNotebook at h
    rw [hw] at h
    simp at h
  | some r =>
    obtain ⟨j, hj⟩ :=
      firstNonCreating_isSome_of_waitAux fd_feature_group_name polls fuel 0 r hw
    have hwait := waitAux_eq_of_firstNonCreating fd_feature_group_name polls fuel 0 j hj
    have hr : r = if polls j = some "Created" then Except.ok ()
        else Except.error ("Failed to create feature group " ++ fd_feature_group_name) :=
      Option.some.inj (hw.symm.trans hwait)
    by_cases hc : polls j = some "Created"
    · refine ⟨j, hj, hc, ?_⟩
      rw [if_pos hc] at hr
      subst hr
      unfold runNotebook at h
      rw [hw] at h
      simp only [Option.some.injEq, Except.ok.injEq] at h
      rw [← h]
      simp [describeEvents, hj]
    · exfalso
      rw [if_neg hc] at hr
      subst hr
      unfold runNotebook at h
      rw [hw] at h
      simp at h

/-- A failed notebook run stops polling at the first non-`"Creating"`
status, which is not `"Created"`, and surfaces exactly the wait loop's
`RuntimeError` message. -/
theorem runNotebook_error (raw : DataFrame) (t : Int) (bucket roleArn : String)
    (polls : Nat → Option String) (fuel : Nat) (e : String)
    (h : runNotebook raw t bucket roleArn polls fuel = some (Except.error e)) :
    e = "Failed to create feature group " ++ fd_feature_group_name ∧
    ∃ j, firstNonCreating polls fuel 0 = some j ∧
      polls j ≠ some "Creating" ∧ polls j ≠ some "Created" := by
  cases hw : wait_for_feature_group_creation_complete polls fuel with
  | none =>
    unfold runNotebook at h
    rw [hw] at h
    simp at h
  | some r =>
    obtain ⟨j, hj⟩ :=
      firstNonCreating_isSome_of_waitAux fd_feature_group_name polls fuel 0 r hw
    have hwait := waitAux_eq_of_firstNonCreating fd_feature_group_name polls fuel 0 j hj
    have hr : r = if polls j = some "Created" then Except.ok ()
        else Except.error ("Failed to create feature group " ++ fd_feature_group_name) :=
      Option.some.inj (hw.symm.trans hwait)
    by_cases hc : polls j = some "Created"
    · exfalso
      rw [if_pos hc] at hr
      subst hr
      unfold runNotebook at h
      rw [hw] at h
      simp at h
    · rw [if_neg hc] at hr
      subst hr
      unfold runNotebook at h
      rw [hw] at h
      simp only [Option.some.injEq, Except.error.injEq] at h
      exact ⟨h.symm, j, hj, firstNonCreating_not_creating polls fuel 0 j hj, hc⟩

/-- C2: after the ingest call completes, the notebook performs exactly one
record lookup — a single `get_record` call with `FeatureGroupName` equal
to `'transactionfeaturegroup001'` and `RecordIdentifierValueAsString`
equal to the string `"100"` (it is `str(100)`) — and nothing else follows
the ingest except that lookup. -/
theorem notebook_single_get_record
    (raw : DataFrame) (t : Int) (bucket roleArn : String)
    (polls : Nat → Option String) (fuel : Nat) (tr : List Event)
    (h : runNotebook raw t bucket roleArn polls fuel = some (Except.ok tr)) :
    tr.filter isGetRecord = [Event.getRecord "transactionfeaturegroup001" "100"] ∧
    ∃ front, tr = front ++
        [Event.ingest "transactionfeaturegroup001" (prepared_data raw t) 3 true,
         Event.getRecord "transactionfeaturegroup001" "100"] := by
  obtain ⟨j, hj, hc, htr⟩ := runNotebook_ok raw t bucket roleArn polls fuel tr h
  have hfg : fd_feature_group_name = "transactionfeaturegroup001" := rfl
  have hrv : record_identifier_value = "100" := rfl
  subst htr
  constructor
  · rw [List.filter_append, List.filter_append,
      filter_replicate_false (p := isGetRecord)
        (a := Event.describeFG fd_feature_group_name) rfl]
    simp [preEvents, postEvents, isGetRecord, hfg, hrv]
  · refine ⟨preEvents raw t bucket roleArn
      ++ List.replicate (j + 1) (Event.describeFG fd_feature_group_name)
      ++ [Event.describeFG fd_feature_group_name], ?_⟩
    simp [postEvents, hfg, hrv]

/-- C4: the notebook ingests the dataset via exactly one call to the
feature group's `ingest` method, with `wait=True` and `max_workers=3`
forwarded opaquely to the SDK. -/
theorem notebook_single_ingest
    (raw : DataFrame) (t : Int) (bucket roleArn : String)
    (polls : Nat → Option String) (fuel : Nat) (tr : List Event)
    (h : runNotebook raw t bucket roleArn polls fuel = some (Except.ok tr)) :
    tr.filter isIngest =
      [Event.ingest "transactionfeaturegroup001" (prepared_data raw t) 3 true] := by
  obtain ⟨j, hj, hc, htr⟩ := runNotebook_ok raw t bucket roleArn polls fuel tr h
  have hfg : fd_feature_group_name = "transactionfeaturegroup001" := rfl
  subst htr
  rw [List.filter_append, List.filter_append,
    filter_replicate_false (p := isIngest)
    (a := Event.describeFG fd_feature_group_name) rfl]
  simp [preEvents, postEvents, isIngest, hfg]

/-- C5: a successful run's externally visible calls occur in this fixed
order — fetch and parse the CSV, then create the feature group and poll
its status (`n` describe calls, `n ≥ 1`), then ingest the rows, and only
then the single record lookup, which is last. In particular no
feature-store call precedes the data read and no lookup precedes
ingestion. -/
theorem notebook_call_order
    (raw : DataFrame) (t : Int) (bucket roleArn : String)
    (polls : Nat → Option String) (fuel : Nat) (tr : List Event)
    (h : runNotebook raw t bucket roleArn polls fuel = some (Except.ok tr)) :
    ∃ n, 1 ≤ n ∧ tr =
      [Event.s3GetObject bucket data_file_key, Event.readCsv,
       Event.loadFeatureDefinitions fd_feature_group_name (prepared_data raw t),
       Event.createFG fd_feature_group_name (offline_store_s3_uri bucket)
         record_identifier_feature_name event_time_feature_name roleArn true]
      ++ List.replicate n (Event.describeFG fd_feature_group_name)
      ++ [Event.ingest fd_feature_group_name (prepared_data raw t) 3 true,
          Event.getRecord fd_feature_group_name record_identifier_value] := by
  obtain ⟨j, hj, hc, htr⟩ := runNotebook_ok raw t bucket roleArn polls fuel tr h
  subst htr
  refine ⟨j + 2, by omega, ?_⟩
  have hrep : List.replicate (j + 2) (Event.describeFG fd_feature_group_name) =
      List.replicate (j + 1) (Event.describeFG fd_feature_group_name)
        ++ [Event.describeFG fd_feature_group_name] :=
    List.replicate_succ' (j + 1) (Event.describeFG fd_feature_group_name)
  rw [hrep]
  simp [preEvents, postEvents]

/-- C6: the only error a notebook run can stop with is the wait loop's
`RuntimeError`, raised exactly when the first non-`"Creating"` polled
status is not `"Created"`; no other authored code path raises or handles
an exception. -/
theorem notebook_only_error_is_wait_failure
    (raw : DataFrame) (t : Int) (bucket roleArn : String)
    (polls : Nat → Option String) (fuel : Nat) (e : String)
    (h : runNotebook raw t bucket roleArn polls fuel = some (Except.error e)) :
    e = "Failed to create feature group " ++ fd_feature_group_name ∧
    ∃ j, firstNonCreating polls fuel 0 = some j ∧
      polls j ≠ some "Creating" ∧ polls j ≠ some "Created" :=
  runNotebook_error raw t bucket roleArn polls fuel e h

/-- C7: schema registration is fully delegated — the notebook calls
`load_feature_definitions` on the prepared frame (the raw frame after
object-to-string casting and the `event_time` assignment), and then calls
`create` with `record_identifier_name="record_id"`,
`event_time_feature_name="event_time"` and `enable_online_store=True`;
the create call carries no notebook-built feature definitions. -/
theorem notebook_schema_delegation
    (raw : DataFrame) (t : Int) (bucket roleArn : String)
    (polls : Nat → Option String) (fuel : Nat) (tr : List Event)
    (h : runNotebook raw t bucket roleArn polls fuel = some (Except.ok tr)) :
    ∃ rest, tr =
      [Event.s3GetObject bucket data_file_key, Event.readCsv,
       Event.loadFeatureDefinitions "transactionfeaturegroup001"
         (append_event_time (cast_object_to_string raw) t),
       Event.createFG "transactionfeaturegroup001" (offline_store_s3_uri bucket)
         "record_id" "event_time" roleArn true] ++ rest := by
  obtain ⟨j, hj, hc, htr⟩ := runNotebook_ok raw t bucket roleArn polls fuel tr h
  subst htr
  refine ⟨List.replicate (j + 1) (Event.describeFG fd_feature_group_name)
    ++ postEvents raw t, ?_⟩
  simp [preEvents, prepared_data, fd_feature_group_name,
    record_identifier_feature_name, event_time_feature_name]

/-! ### A concrete run for evaluating the trace theorems -/

/-- A small input frame: one float column, one object column. -/
def rawEx : DataFrame :=
  { cols := [{ name := "amount", dtype := "float64", values := [Cell.floatV 7] },
             { name := "memo", dtype := "object", values := [Cell.intV 3] }],
    nrows := 1 }

/-- Polled statuses of a run that creates after two `"Creating"` polls. -/
def pollsEx : Nat → Option String :=
  fun i => if i < 2 then some "Creating" else some "Created"

/-- Polled statuses of a run whose first poll already reports failure. -/
def pollsFailEx : Nat → Option String := fun _ => some "CreateFailed"

/-- The trace of the successful concrete run. -/
def trEx : List Event :=
  preEvents rawEx 5 "bkt" "role"
    ++ List.replicate 3 (Event.describeFG fd_feature_group_name)
    ++ postEvents rawEx 5

/-- Witness for C2 on the concrete successful run. -/
theorem notebook_single_get_record_witness :
    trEx.filter isGetRecord = [Event.getRecord "transactionfeaturegroup001" "100"] ∧
    ∃ front, trEx = front ++
        [Event.ingest "transactionfeaturegroup001" (prepared_data rawEx 5) 3 true,
         Event.getRecord "transactionfeaturegroup001" "100"] :=
  notebook_single_get_record rawEx 5 "bkt" "role" pollsEx 9 trEx rfl

/-- Witness for C4 on the concrete successful run. -/
theorem notebook_single_ingest_witness :
    trEx.filter isIngest =
      [Event.ingest "transactionfeaturegroup001" (prepared_data rawEx 5) 3 true] :=
  notebook_single_ingest rawEx 5 "bkt" "role" pollsEx 9 trEx rfl

/-- Witness for C5 on the concrete successful run. -/
theorem notebook_call_order_witness :
    ∃ n, 1 ≤ n ∧ trEx =
      [Event.s3GetObject "bkt" data_file_key, Event.readCsv,
       Event.loadFeatureDefinitions fd_feature_group_name (prepared_data rawEx 5),
       Event.createFG fd_feature_group_name (offline_store_s3_uri "bkt")
         record_identifier_feature_name event_time_feature_name "role" true]
      ++ List.replicate n (Event.describeFG fd_feature_group_name)
      ++ [Event.ingest fd_feature_group_name (prepared_data rawEx 5) 3 true,
          Event.getRecord fd_feature_group_name record_identifier_value] :=
  notebook_call_order rawEx 5 "bkt" "role" pollsEx 9 trEx rfl

/-- Witness for C6 on the concrete failing run. -/
theorem notebook_only_error_is_wait_failure_witness :
    "Failed to create feature group transactionfeaturegroup001" =
        "Failed to create feature group " ++ fd_feature_group_name ∧
    ∃ j, firstNonCreating pollsFailEx 3 0 = some j ∧
      pollsFailEx j ≠ some "Creating" ∧ pollsFailEx j ≠ some "Created" :=
  notebook_only_error_is_wait_failure rawEx 5 "bkt" "role" pollsFailEx 3
    "Failed to create feature group transactionfeaturegroup001" rfl

/-- Witness for C7 on the concrete successful run. -/
theorem notebook_schema_delegation_witness :
    ∃ rest, trEx =
      [Event.s3GetObject "bkt" data_file_key, Event.readCsv,
       Event.loadFeatureDefinitions "transactionfeaturegroup001"
         (append_event_time (cast_object_to_string rawEx) 5),
       Event.createFG "transactionfeaturegroup001" (offline_store_s3_uri "bkt")
         "record_id" "event_time" "role" true] ++ rest :=
  notebook_schema_delegation rawEx 5 "bkt" "role" pollsEx 9 trEx rfl
